import Mathlib

set_option linter.unusedVariables false

/-!
Verification development for the Residual-Neural-Networks repository
(PatrickTourniaire/Residual-Neural-Networks).

The repository consists of two notebooks that assemble a ResNet-50
computation graph from Keras layers:
  * `src/ResNet-implementation.ipynb` (namespace `Impl` below), and
  * `src/unnamed/part_000` (namespace `Part0` below).

We shallowly embed Keras functional-API graph construction: applying a
layer to a symbolic tensor creates a new graph node, so a built model is a
tree of layer applications over an input node.  Python runtime failures
that the notebooks can hit (tuple-unpacking errors, `NameError` on unbound
variables) are modelled with `Except PyErr`.
-/

/-- Parameters of a Keras `Conv2D` layer as used in the notebooks.
`padding` is the Keras padding mode string ("valid" or "same"); `seed` is
`some n` when the layer is built with `kernel_initializer =
glorot_uniform(seed=n)` and `none` when no initializer is passed. -/
structure ConvParams where
  filters : Nat
  kernel_size : Nat × Nat
  strides : Nat × Nat
  padding : String
  name : Option String
  seed : Option Nat
deriving DecidableEq, Repr

/-- The kinds of unary Keras layers applied in the two notebooks, with the
parameters the source passes to them. -/
inductive LayerOp
  | conv2D (p : ConvParams)
  | batchNorm (axis : Nat) (name : Option String)
  | activation (fn : String)
  | zeroPadding2D (pad : Nat × Nat)
  | maxPooling2D (pool : Nat × Nat) (strides : Nat × Nat)
  | averagePooling2D (pool : Nat × Nat) (padding : String)
  | flatten
  | dense (units : Nat) (activation : String) (name : Option String) (seed : Option Nat)
deriving DecidableEq, Repr

/-- A symbolic Keras tensor: an input node, a unary layer application, or
an `Add()([x, y])` merge node (the only multi-input layer the notebooks
use, always applied to exactly two tensors). -/
inductive Tensor
  | input (shape : List Nat)
  | app1 (op : LayerOp) (x : Tensor)
  | add2 (name : Option String) (x y : Tensor)
deriving DecidableEq, Repr

/-- Output length of one spatial dimension of a Keras convolution/pooling
window of size `k` and stride `s` over an input of length `n`:
"valid" gives `(n - k) / s + 1` (needs `k ≤ n`), "same" gives `⌈n / s⌉`. -/
def convOutDim (padding : String) (n k s : Nat) : Option Nat :=
  if padding = "valid" then
    if 1 ≤ s ∧ k ≤ n then some ((n - k) / s + 1) else none
  else if padding = "same" then
    if 1 ≤ s then some ((n + s - 1) / s) else none
  else none

/-- Keras shape semantics of a single layer on a (batchless) input shape.
Convolutional/pooling layers act on rank-3 shapes `[h, w, c]`; `Dense`
acts on rank-1 shapes. -/
def opOutShape (op : LayerOp) (shp : List Nat) : Option (List Nat) :=
  match op, shp with
  | LayerOp.conv2D p, [h, w, _] =>
    match convOutDim p.padding h p.kernel_size.1 p.strides.1,
          convOutDim p.padding w p.kernel_size.2 p.strides.2 with
    | some h2, some w2 => some [h2, w2, p.filters]
    | _, _ => none
  | LayerOp.batchNorm _ _, s2 => some s2
  | LayerOp.activation _, s2 => some s2
  | LayerOp.zeroPadding2D (ph, pw), [h, w, c] => some [h + 2 * ph, w + 2 * pw, c]
  | LayerOp.maxPooling2D (ph, pw) (sh, sw), [h, w, c] =>
    match convOutDim "valid" h ph sh, convOutDim "valid" w pw sw with
    | some h2, some w2 => some [h2, w2, c]
    | _, _ => none
  | LayerOp.averagePooling2D (ph, pw) pad, [h, w, c] =>
    -- Keras pooling strides default to the pool size when not given,
    -- which is how AveragePooling2D is called in both notebooks.
    match convOutDim pad h ph ph, convOutDim pad w pw pw with
    | some h2, some w2 => some [h2, w2, c]
    | _, _ => none
  | LayerOp.flatten, [h, w, c] => some [h * w * c]
  | LayerOp.dense u _ _ _, [_] => some [u]
  | _, _ => none

/-- Shape of a symbolic tensor, `none` when the graph is ill-shaped.
`Add` requires its two operands to have equal shapes, as Keras does. -/
def Tensor.outShape : Tensor → Option (List Nat)
  | Tensor.input s => some s
  | Tensor.app1 op x =>
    match x.outShape with
    | some s => opOutShape op s
    | none => none
  | Tensor.add2 _ x y =>
    match x.outShape, y.outShape with
    | some sx, some sy => if sx = sy then some sx else none
    | _, _ => none

/-- Erase the `name` argument of a layer, keeping every other parameter. -/
def LayerOp.stripName : LayerOp → LayerOp
  | LayerOp.conv2D p =>
    LayerOp.conv2D ⟨p.filters, p.kernel_size, p.strides, p.padding, none, p.seed⟩
  | LayerOp.batchNorm a _ => LayerOp.batchNorm a none
  | LayerOp.dense u act _ sd => LayerOp.dense u act none sd
  | op => op

/-- Erase all layer names in a graph, keeping the topology and every other
layer parameter. -/
def Tensor.stripNames : Tensor → Tensor
  | Tensor.input s => Tensor.input s
  | Tensor.app1 op x => Tensor.app1 op.stripName x.stripNames
  | Tensor.add2 _ x y => Tensor.add2 none x.stripNames y.stripNames

/-- The kind of a layer, forgetting all of its parameters. -/
inductive LayerKind
  | conv | bn | act | zeroPad | maxPool | avgPool | flat | fc
deriving DecidableEq, Repr

/-- Kind of a `LayerOp`. -/
def LayerOp.kind : LayerOp → LayerKind
  | LayerOp.conv2D _ => LayerKind.conv
  | LayerOp.batchNorm _ _ => LayerKind.bn
  | LayerOp.activation _ => LayerKind.act
  | LayerOp.zeroPadding2D _ => LayerKind.zeroPad
  | LayerOp.maxPooling2D _ _ => LayerKind.maxPool
  | LayerOp.averagePooling2D _ _ => LayerKind.avgPool
  | LayerOp.flatten => LayerKind.flat
  | LayerOp.dense _ _ _ _ => LayerKind.fc

/-- A tensor graph with every layer parameter forgotten: only the shape of
the graph and the kind of each layer remain. -/
inductive KindTree
  | leaf (shape : List Nat)
  | node1 (k : LayerKind) (t : KindTree)
  | node2 (x y : KindTree)
deriving DecidableEq, Repr

/-- Kind skeleton of a tensor graph. -/
def Tensor.kindTree : Tensor → KindTree
  | Tensor.input s => KindTree.leaf s
  | Tensor.app1 op x => KindTree.node1 op.kind x.kindTree
  | Tensor.add2 _ x y => KindTree.node2 x.kindTree y.kindTree

/-- Every `Conv2D` and `Dense` layer in the graph carries
`kernel_initializer = glorot_uniform(seed=0)`. -/
def Tensor.seedsOk : Tensor → Bool
  | Tensor.input _ => true
  | Tensor.app1 (LayerOp.conv2D p) x => (p.seed == some 0) && x.seedsOk
  | Tensor.app1 (LayerOp.dense _ _ _ sd) x => (sd == some 0) && x.seedsOk
  | Tensor.app1 _ x => x.seedsOk
  | Tensor.add2 _ x y => x.seedsOk && y.seedsOk

/-- Python runtime errors the notebooks can raise while building a graph:
`NameError` on a read of an unbound variable, and the `ValueError` raised
by unpacking `F1, F2, F3 = filters` when `filters` does not have exactly
three elements. -/
inductive PyErr
  | nameError (name : String)
  | unpackError
deriving DecidableEq, Repr

/-- Identity/residual block of `src/ResNet-implementation.ipynb`
(cell-5, lines 96-125): three named convolutions with batch
normalization, then `Add()([X, X_shortcut])` with the saved raw input,
then ReLU.  All convolutions use `glorot_uniform(seed=0)`. -/
def Impl.residual_block (X : Tensor) (f : Nat) (filters : List Nat)
    (stage : Nat) (block : String) : Except PyErr Tensor :=
  let conv_name_base := "res" ++ toString stage ++ block ++ "_branch"
  let bn_name_base := "bn" ++ toString stage ++ block ++ "_branch"
  match filters with
  | [F1, F2, F3] =>
    let X_shortcut := X
    let X := Tensor.app1 (LayerOp.conv2D
      ⟨F1, (1, 1), (1, 1), "valid", some (conv_name_base ++ "2a"), some 0⟩) X
    let X := Tensor.app1 (LayerOp.batchNorm 3 (some (bn_name_base ++ "2a"))) X
    let X := Tensor.app1 (LayerOp.activation "relu") X
    let X := Tensor.app1 (LayerOp.conv2D
      ⟨F2, (f, f), (1, 1), "same", some (conv_name_base ++ "2b"), some 0⟩) X
    let X := Tensor.app1 (LayerOp.batchNorm 3 (some (bn_name_base ++ "2b"))) X
    let X := Tensor.app1 (LayerOp.activation "relu") X
    let X := Tensor.app1 (LayerOp.conv2D
      ⟨F3, (1, 1), (1, 1), "valid", some (conv_name_base ++ "2c"), some 0⟩) X
    let X := Tensor.app1 (LayerOp.batchNorm 3 (some (bn_name_base ++ "2c"))) X
    let X := Tensor.add2 none X X_shortcut
    let X := Tensor.app1 (LayerOp.activation "relu") X
    Except.ok X
  | _ => Except.error PyErr.unpackError

/-- Convolutional block of `src/ResNet-implementation.ipynb`
(cell-7, lines 141-175): same main path as the residual block but with
stride `s` on the first convolution, and a projection shortcut
`Conv2D(F3, (1,1), strides=(s,s), padding="valid")` + `BatchNormalization`
applied to the saved input before the `Add`. -/
def Impl.convolutional_block (X : Tensor) (f : Nat) (filters : List Nat)
    (stage : Nat) (block : String) (s : Nat) : Except PyErr Tensor :=
  let conv_name_base := "res" ++ toString stage ++ block ++ "_branch"
  let bn_name_base := "bn" ++ toString stage ++ block ++ "_branch"
  match filters with
  | [F1, F2, F3] =>
    let X_shortcut := X
    let X := Tensor.app1 (LayerOp.conv2D
      ⟨F1, (1, 1), (s, s), "valid", some (conv_name_base ++ "2a"), some 0⟩) X
    let X := Tensor.app1 (LayerOp.batchNorm 3 (some (bn_name_base ++ "2a"))) X
    let X := Tensor.app1 (LayerOp.activation "relu") X
    let X := Tensor.app1 (LayerOp.conv2D
      ⟨F2, (f, f), (1, 1), "same", some (conv_name_base ++ "2b"), some 0⟩) X
    let X := Tensor.app1 (LayerOp.batchNorm 3 (some (bn_name_base ++ "2b"))) X
    let X := Tensor.app1 (LayerOp.activation "relu") X
    let X := Tensor.app1 (LayerOp.conv2D
      ⟨F3, (1, 1), (1, 1), "valid", some (conv_name_base ++ "2c"), some 0⟩) X
    let X := Tensor.app1 (LayerOp.batchNorm 3 (some (bn_name_base ++ "2c"))) X
    let X_shortcut := Tensor.app1 (LayerOp.conv2D
      ⟨F3, (1, 1), (s, s), "valid", some (conv_name_base ++ "1"), some 0⟩) X_shortcut
    let X_shortcut := Tensor.app1 (LayerOp.batchNorm 3 (some (bn_name_base ++ "1"))) X_shortcut
    let X := Tensor.add2 none X X_shortcut
    let X := Tensor.app1 (LayerOp.activation "relu") X
    Except.ok X
  | _ => Except.error PyErr.unpackError

/-- Residual block of `src/unnamed/part_000` (lines 100-125): same layer
sequence as `Impl.residual_block` but no layer is given a name, and the
saved input is called `X_in`. -/
def Part0.residual_block (X : Tensor) (f : Nat) (filters : List Nat)
    (stage : Nat) (block : String) : Except PyErr Tensor :=
  match filters with
  | [F1, F2, F3] =>
    let X_in := X
    let X := Tensor.app1 (LayerOp.conv2D ⟨F1, (1, 1), (1, 1), "valid", none, some 0⟩) X
    let X := Tensor.app1 (LayerOp.batchNorm 3 none) X
    let X := Tensor.app1 (LayerOp.activation "relu") X
    let X := Tensor.app1 (LayerOp.conv2D ⟨F2, (f, f), (1, 1), "same", none, some 0⟩) X
    let X := Tensor.app1 (LayerOp.batchNorm 3 none) X
    let X := Tensor.app1 (LayerOp.activation "relu") X
    let X := Tensor.app1 (LayerOp.conv2D ⟨F3, (1, 1), (1, 1), "valid", none, some 0⟩) X
    let X := Tensor.app1 (LayerOp.batchNorm 3 none) X
    let X := Tensor.add2 none X X_in
    let X := Tensor.app1 (LayerOp.activation "relu") X
    Except.ok X
  | _ => Except.error PyErr.unpackError

/-- Convolutional block of `src/unnamed/part_000` (lines 143-172).  The
function saves its input as `X_in`, builds the main path, and then the
shortcut path executes `Conv2D(...)(X_shortcut)` — but `X_shortcut` was
never assigned in this function, so the read raises
`NameError: name 'X_shortcut' is not defined` and the function never
returns.  The main-path graph nodes built before the error are recorded
in dead `let` bindings to mirror the statements executed before the
failing read. -/
def Part0.convolutional_block (X : Tensor) (f : Nat) (filters : List Nat)
    (stage : Nat) (block : String) (s : Nat) : Except PyErr Tensor :=
  match filters with
  | [F1, F2, F3] =>
    let X_in := X
    let X := Tensor.app1 (LayerOp.conv2D ⟨F1, (1, 1), (s, s), "valid", none, some 0⟩) X
    let X := Tensor.app1 (LayerOp.batchNorm 3 none) X
    let X := Tensor.app1 (LayerOp.activation "relu") X
    let X := Tensor.app1 (LayerOp.conv2D ⟨F2, (f, f), (1, 1), "same", none, some 0⟩) X
    let X := Tensor.app1 (LayerOp.batchNorm 3 none) X
    let X := Tensor.app1 (LayerOp.activation "relu") X
    let X := Tensor.app1 (LayerOp.conv2D ⟨F3, (1, 1), (1, 1), "valid", none, some 0⟩) X
    let X := Tensor.app1 (LayerOp.batchNorm 3 none) X
    -- SHORTCUT PATH: the source next evaluates
    -- Conv2D(...)(X_shortcut), reading the unbound name X_shortcut.
    Except.error (PyErr.nameError "X_shortcut")
  | _ => Except.error PyErr.unpackError

/-- Which of the two block functions a stage line of `ResNet50` calls. -/
inductive BlockKind
  | convBlock | identBlock
deriving DecidableEq, Repr

/-- One stage line of the `ResNet50` body: a call of `convolutional_block`
(with its explicit `s` keyword argument in `strideArg`) or of the
identity/residual block function (which takes no stride argument,
`strideArg = none`). -/
structure StageCall where
  kind : BlockKind
  f : Nat
  filters : List Nat
  stage : Nat
  block : String
  strideArg : Option Nat
deriving DecidableEq, Repr

/-- The 16 block calls of stages 2-5 in `ResNet50` of
`src/ResNet-implementation.ipynb` (cell-9), one list entry per source
line, in order. -/
def Impl.resNet50StageCalls : List StageCall :=
  [⟨BlockKind.convBlock, 3, [64, 64, 256], 2, "a", some 1⟩,
   ⟨BlockKind.identBlock, 3, [64, 64, 256], 2, "b", none⟩,
   ⟨BlockKind.identBlock, 3, [64, 64, 256], 2, "c", none⟩,
   ⟨BlockKind.convBlock, 3, [128, 128, 512], 3, "a", some 2⟩,
   ⟨BlockKind.identBlock, 3, [128, 128, 512], 3, "b", none⟩,
   ⟨BlockKind.identBlock, 3, [128, 128, 512], 3, "c", none⟩,
   ⟨BlockKind.identBlock, 3, [128, 128, 512], 3, "d", none⟩,
   ⟨BlockKind.convBlock, 3, [256, 256, 1024], 4, "a", some 2⟩,
   ⟨BlockKind.identBlock, 3, [256, 256, 1024], 4, "b", none⟩,
   ⟨BlockKind.identBlock, 3, [256, 256, 1024], 4, "c", none⟩,
   ⟨BlockKind.identBlock, 3, [256, 256, 1024], 4, "d", none⟩,
   ⟨BlockKind.identBlock, 3, [256, 256, 1024], 4, "e", none⟩,
   ⟨BlockKind.identBlock, 3, [256, 256, 1024], 4, "f", none⟩,
   ⟨BlockKind.convBlock, 3, [512, 512, 2048], 5, "a", some 2⟩,
   ⟨BlockKind.identBlock, 3, [512, 512, 2048], 5, "b", none⟩,
   ⟨BlockKind.identBlock, 3, [512, 512, 2048], 5, "c", none⟩]

/-- The 16 block calls of stages 2-5 in `ResNet50` of
`src/unnamed/part_000` (lines 204-226), one list entry per source line,
in order.  The identity lines there call `identity_block`. -/
def Part0.resNet50StageCalls : List StageCall :=
  [⟨BlockKind.convBlock, 3, [64, 64, 256], 2, "a", some 1⟩,
   ⟨BlockKind.identBlock, 3, [64, 64, 256], 2, "b", none⟩,
   ⟨BlockKind.identBlock, 3, [64, 64, 256], 2, "c", none⟩,
   ⟨BlockKind.convBlock, 3, [128, 128, 512], 3, "a", some 2⟩,
   ⟨BlockKind.identBlock, 3, [128, 128, 512], 3, "b", none⟩,
   ⟨BlockKind.identBlock, 3, [128, 128, 512], 3, "c", none⟩,
   ⟨BlockKind.identBlock, 3, [128, 128, 512], 3, "d", none⟩,
   ⟨BlockKind.convBlock, 3, [256, 256, 1024], 4, "a", some 2⟩,
   ⟨BlockKind.identBlock, 3, [256, 256, 1024], 4, "b", none⟩,
   ⟨BlockKind.identBlock, 3, [256, 256, 1024], 4, "c", none⟩,
   ⟨BlockKind.identBlock, 3, [256, 256, 1024], 4, "d", none⟩,
   ⟨BlockKind.identBlock, 3, [256, 256, 1024], 4, "e", none⟩,
   ⟨BlockKind.identBlock, 3, [256, 256, 1024], 4, "f", none⟩,
   ⟨BlockKind.convBlock, 3, [512, 512, 2048], 5, "a", some 2⟩,
   ⟨BlockKind.identBlock, 3, [512, 512, 2048], 5, "b", none⟩,
   ⟨BlockKind.identBlock, 3, [512, 512, 2048], 5, "c", none⟩]

/-- Dispatch of one stage line of the ipynb `ResNet50`: conv lines call
`Impl.convolutional_block` with the explicit `s` argument (Python default
`s=2` when absent), identity lines call `Impl.residual_block`. -/
def Impl.applyStageCall (X : Tensor) (c : StageCall) : Except PyErr Tensor :=
  match c.kind with
  | BlockKind.convBlock =>
    Impl.convolutional_block X c.f c.filters c.stage c.block (c.strideArg.getD 2)
  | BlockKind.identBlock =>
    Impl.residual_block X c.f c.filters c.stage c.block

/-- Dispatch of one stage line of the part_000 `ResNet50`: conv lines call
`Part0.convolutional_block`; identity lines call `identity_block`, a name
that is nowhere defined in part_000, so evaluating such a line raises
`NameError: name 'identity_block' is not defined`. -/
def Part0.applyStageCall (X : Tensor) (c : StageCall) : Except PyErr Tensor :=
  match c.kind with
  | BlockKind.convBlock =>
    Part0.convolutional_block X c.f c.filters c.stage c.block (c.strideArg.getD 2)
  | BlockKind.identBlock =>
    Except.error (PyErr.nameError "identity_block")

/-- ResNet50 graph assembly of `src/ResNet-implementation.ipynb`
(cell-9, lines 191-241).  Source defaults: `input_shape = (28, 28, 1)`,
`classes = 10`.  The built `Model` is represented by its output tensor
(the input node is the unique `Tensor.input` leaf of that tree). -/
def Impl.ResNet50 (input_shape : List Nat) (classes : Nat) : Except PyErr Tensor :=
  let X_input := Tensor.input input_shape
  let X := Tensor.app1 (LayerOp.zeroPadding2D (3, 3)) X_input
  let X := Tensor.app1 (LayerOp.conv2D
    ⟨64, (7, 7), (2, 2), "valid", some "conv1", some 0⟩) X
  let X := Tensor.app1 (LayerOp.batchNorm 3 (some "bn_conv1")) X
  let X := Tensor.app1 (LayerOp.activation "relu") X
  let X := Tensor.app1 (LayerOp.maxPooling2D (3, 3) (2, 2)) X
  (Impl.resNet50StageCalls.foldlM Impl.applyStageCall X).map (fun X =>
    let X := Tensor.app1 (LayerOp.averagePooling2D (2, 2) "same") X
    let X := Tensor.app1 LayerOp.flatten X
    Tensor.app1 (LayerOp.dense classes "softmax"
      (some ("fc" ++ toString classes)) (some 0)) X)

/-- ResNet50 graph assembly of `src/unnamed/part_000` (lines 189-239).
Source defaults: `input_shape = (64, 64, 3)`, `classes = 6`.  Identical
head and tail to the ipynb version; the stage lines dispatch through
`Part0.applyStageCall`. -/
def Part0.ResNet50 (input_shape : List Nat) (classes : Nat) : Except PyErr Tensor :=
  let X_input := Tensor.input input_shape
  let X := Tensor.app1 (LayerOp.zeroPadding2D (3, 3)) X_input
  let X := Tensor.app1 (LayerOp.conv2D
    ⟨64, (7, 7), (2, 2), "valid", some "conv1", some 0⟩) X
  let X := Tensor.app1 (LayerOp.batchNorm 3 (some "bn_conv1")) X
  let X := Tensor.app1 (LayerOp.activation "relu") X
  let X := Tensor.app1 (LayerOp.maxPooling2D (3, 3) (2, 2)) X
  (Part0.resNet50StageCalls.foldlM Part0.applyStageCall X).map (fun X =>
    let X := Tensor.app1 (LayerOp.averagePooling2D (2, 2) "same") X
    let X := Tensor.app1 LayerOp.flatten X
    Tensor.app1 (LayerOp.dense classes "softmax"
      (some ("fc" ++ toString classes)) (some 0)) X)

/-- One code cell of a notebook, abstracted to the global names it needs
already bound when it starts executing (`reads`) and the global names its
top-level statements assign (`binds`). -/
structure NbCell where
  reads : List String
  binds : List String
deriving DecidableEq, Repr

/-- Run notebook cells in order over an environment of bound names: the
first read of a name that is not bound raises `NameError` on that name
(returned as `Except.error`); otherwise each cell adds its bindings. -/
def runCells (env : List String) : List NbCell → Except String (List String)
  | [] => Except.ok env
  | c :: rest =>
    match c.reads.find? (fun n => !(env.contains n)) with
    | some n => Except.error n
    | none => runCells (env ++ c.binds) rest

/-- The data-formatting cell of `src/ResNet-implementation.ipynb`
(cell-2): it reads `K`, `mnist` and `keras` from the import cell, binds
the hyperparameters and the reshaped data arrays, and binds `input_shape`
only in the `else` branch, i.e. only when `K.image_data_format()` is not
"channels_first". -/
def Impl.dataCell (fmt : String) : NbCell :=
  ⟨["K", "mnist", "keras"],
   ["batch_size", "num_classes", "epochs", "img_rows", "img_cols",
    "x_train", "y_train", "x_test", "y_test"] ++
   (if fmt = "channels_first" then [] else ["input_shape"])⟩

/-- The code cells of `src/ResNet-implementation.ipynb` in the notebook's
listed order, abstracted to reads/binds of top-level names;
`fmt` is the value `K.image_data_format()` returns in cell-2.
In order: cell-0 (imports), cell-2 (data formatting), cell-3
(`x_train.shape`), cell-5 (`def residual_block`), cell-7
(`def convolutional_block`), cell-9 (`def ResNet50`), cell-10
(`model = ResNet50(...)` and `model.compile`; calling `ResNet50` resolves
the layer constructors and the two block functions from the global
environment), cell-11 (`model.fit(x_train, y_train, ...)`, an expression
statement that binds nothing), cell-12 (accuracy plot, reads
`history.history`), cell-13 (loss plot, reads `history.history`). -/
def Impl.notebookCells (fmt : String) : List NbCell :=
  [⟨[], ["np", "pd", "plt", "keras", "mnist", "Sequential", "Input", "Add",
         "Dense", "Activation", "ZeroPadding2D", "BatchNormalization",
         "Flatten", "Conv2D", "AveragePooling2D", "MaxPooling2D",
         "GlobalMaxPooling2D", "Model", "load_model", "K", "glorot_uniform"]⟩,
   Impl.dataCell fmt,
   ⟨["x_train"], []⟩,
   ⟨[], ["residual_block"]⟩,
   ⟨[], ["convolutional_block"]⟩,
   ⟨[], ["ResNet50"]⟩,
   ⟨["ResNet50", "num_classes", "residual_block", "convolutional_block",
     "Input", "ZeroPadding2D", "Conv2D", "BatchNormalization", "Activation",
     "MaxPooling2D", "Add", "AveragePooling2D", "Flatten", "Dense", "Model",
     "glorot_uniform"], ["model"]⟩,
   ⟨["model", "x_train", "y_train", "epochs", "batch_size"], []⟩,
   ⟨["plt", "history"], []⟩,
   ⟨["plt", "history"], []⟩]

/-- Environment of bound names after running the first `k` code cells of
the ipynb notebook in listed order, `none` if a `NameError` occurred. -/
def Impl.envAfterFirstCells (fmt : String) (k : Nat) : Option (List String) :=
  (runCells [] ((Impl.notebookCells fmt).take k)).toOption

/-- The block calls of stage `st`, in order, within a stage-call list. -/
def stageFilterCalls (L : List StageCall) (st : Nat) : List StageCall :=
  L.filter (fun c => c.stage == st)

/-- Stage `st` consists of exactly one convolutional block followed by
`nIdent` identity/residual blocks, and every block of the stage is called
with the filter triple `T`. -/
def stageShapeOK (L : List StageCall) (st nIdent : Nat) (T : List Nat) : Bool :=
  (stageFilterCalls L st).map StageCall.kind ==
      BlockKind.convBlock :: List.replicate nIdent BlockKind.identBlock
    && (stageFilterCalls L st).all (fun c => c.filters == T)

/-- The first block of stage `st` is a convolutional block invoked with
the explicit stride argument `s = sVal`. -/
def firstBlockIsConvWithStride (L : List StageCall) (st sVal : Nat) : Bool :=
  match stageFilterCalls L st with
  | c :: _ => c.kind == BlockKind.convBlock && c.strideArg == some sVal
  | [] => false

/-- Kind skeleton that the ipynb `residual_block` produces over the kind
skeleton of its input: conv-bn-relu-conv-bn-relu-conv-bn main path, then
an add with the input, then relu. -/
def residualSkel (t : KindTree) : KindTree :=
  KindTree.node1 LayerKind.act (KindTree.node2
    (KindTree.node1 LayerKind.bn (KindTree.node1 LayerKind.conv
      (KindTree.node1 LayerKind.act (KindTree.node1 LayerKind.bn
        (KindTree.node1 LayerKind.conv (KindTree.node1 LayerKind.act
          (KindTree.node1 LayerKind.bn (KindTree.node1 LayerKind.conv t))))))))
    t)

/-- Kind skeleton that the ipynb `convolutional_block` produces over the
kind skeleton of its input: the same main path as `residualSkel`, but the
added branch is a conv-bn projection of the input. -/
def convSkel (t : KindTree) : KindTree :=
  KindTree.node1 LayerKind.act (KindTree.node2
    (KindTree.node1 LayerKind.bn (KindTree.node1 LayerKind.conv
      (KindTree.node1 LayerKind.act (KindTree.node1 LayerKind.bn
        (KindTree.node1 LayerKind.conv (KindTree.node1 LayerKind.act
          (KindTree.node1 LayerKind.bn (KindTree.node1 LayerKind.conv t))))))))
    (KindTree.node1 LayerKind.bn (KindTree.node1 LayerKind.conv t)))

/-- C1: in the ResNet50 graph-assembly function of both notebooks, every
block call lies in stages 2-5, there are 16 block calls in total, and
stages 2/3/4/5 consist of exactly one convolutional block followed by
2/3/5/2 identity blocks, each stage using the filter triples
[64,64,256] / [128,128,512] / [256,256,1024] / [512,512,2048]. -/
theorem resnet50_stage_structure_conforms :
    (Impl.resNet50StageCalls.length = 16 ∧
      Impl.resNet50StageCalls.all (fun c => 2 ≤ c.stage && c.stage ≤ 5) = true ∧
      stageShapeOK Impl.resNet50StageCalls 2 2 [64, 64, 256] = true ∧
      stageShapeOK Impl.resNet50StageCalls 3 3 [128, 128, 512] = true ∧
      stageShapeOK Impl.resNet50StageCalls 4 5 [256, 256, 1024] = true ∧
      stageShapeOK Impl.resNet50StageCalls 5 2 [512, 512, 2048] = true) ∧
    (Part0.resNet50StageCalls.length = 16 ∧
      Part0.resNet50StageCalls.all (fun c => 2 ≤ c.stage && c.stage ≤ 5) = true ∧
      stageShapeOK Part0.resNet50StageCalls 2 2 [64, 64, 256] = true ∧
      stageShapeOK Part0.resNet50StageCalls 3 3 [128, 128, 512] = true ∧
      stageShapeOK Part0.resNet50StageCalls 4 5 [256, 256, 1024] = true ∧
      stageShapeOK Part0.resNet50StageCalls 5 2 [512, 512, 2048] = true) := by
  decide

/-- C2 counterexample: the first block of stage 2 is NOT invoked with
stride 2 in either notebook — the source line is
`convolutional_block(X, f = 3, filters = [64, 64, 256], stage = 2,
block='a', s = 1)`. -/
theorem stage2_first_block_stride2_fails :
    firstBlockIsConvWithStride Impl.resNet50StageCalls 2 2 = false ∧
    firstBlockIsConvWithStride Part0.resNet50StageCalls 2 2 = false := by
  decide

/-- C2 amended: in both notebooks the first block of each of stages 3, 4
and 5 is a convolutional block invoked with `s = 2`, while the first
block of stage 2 is a convolutional block invoked with `s = 1`. -/
theorem first_stage_block_strides_amended :
    (firstBlockIsConvWithStride Impl.resNet50StageCalls 2 1 = true ∧
      firstBlockIsConvWithStride Impl.resNet50StageCalls 3 2 = true ∧
      firstBlockIsConvWithStride Impl.resNet50StageCalls 4 2 = true ∧
      firstBlockIsConvWithStride Impl.resNet50StageCalls 5 2 = true) ∧
    (firstBlockIsConvWithStride Part0.resNet50StageCalls 2 1 = true ∧
      firstBlockIsConvWithStride Part0.resNet50StageCalls 3 2 = true ∧
      firstBlockIsConvWithStride Part0.resNet50StageCalls 4 2 = true ∧
      firstBlockIsConvWithStride Part0.resNet50StageCalls 5 2 = true) := by
  decide

/-- C4: every call of the part_000 `convolutional_block` whose `filters`
argument unpacks into three values builds the main path and then reaches
the shortcut-path `Conv2D` applied to the unbound variable `X_shortcut`,
so it raises `NameError: name 'X_shortcut' is not defined` and never
returns a tensor. -/
theorem part0_convolutional_block_always_nameerror :
    ∀ (X : Tensor) (f F1 F2 F3 stage : Nat) (block : String) (s : Nat),
      Part0.convolutional_block X f [F1, F2, F3] stage block s =
        Except.error (PyErr.nameError "X_shortcut") := by
  intro X f F1 F2 F3 stage block s
  rfl

/-- Decidable equality of `Except` results, used to evaluate the cell-run
and graph-construction functions on concrete inputs. -/
instance {ε : Type} {α : Type} [DecidableEq ε] [DecidableEq α] :
    DecidableEq (Except ε α) := fun x y =>
  match x, y with
  | Except.ok a, Except.ok b =>
    if h : a = b then isTrue (by rw [h]) else
      isFalse (by intro hc; cases hc; exact h rfl)
  | Except.error a, Except.error b =>
    if h : a = b then isTrue (by rw [h]) else
      isFalse (by intro hc; cases hc; exact h rfl)
  | Except.ok _, Except.error _ => isFalse (by intro hc; cases hc)
  | Except.error _, Except.ok _ => isFalse (by intro hc; cases hc)

/-- C5: running every code cell of `src/ResNet-implementation.ipynb`
exactly once in the notebook's listed order still raises
`NameError: name 'history' is not defined` at the accuracy-plot cell,
because no cell of the notebook ever binds `history`: cell-11 evaluates
`model.fit(x_train, y_train, ...)` as a bare expression statement without
assigning its result.  The same holds under either image data format. -/
theorem history_unbound_even_in_listed_order :
    runCells [] (Impl.notebookCells "channels_last") = Except.error "history" ∧
    (Impl.notebookCells "channels_last").all
      (fun c => !(c.binds.contains "history")) = true ∧
    runCells [] (Impl.notebookCells "channels_first") = Except.error "history" ∧
    (Impl.notebookCells "channels_first").all
      (fun c => !(c.binds.contains "history")) = true := by
  decide

/-- C9: after the import cell and the data-formatting cell run under the
"channels_first" data format, the data is reshaped (`x_train` is bound)
but `input_shape` is not bound — it is assigned only in the `else`
branch — so a subsequent read of `input_shape` would raise `NameError`;
under the "channels_last" format (the precondition of the claim)
`input_shape` is bound, so that unbound-read situation cannot arise. -/
theorem input_shape_bound_only_without_channels_first :
    (Impl.envAfterFirstCells "channels_first" 2).any
      (fun env => env.contains "x_train" && !(env.contains "input_shape")) = true ∧
    (Impl.envAfterFirstCells "channels_last" 2).any
      (fun env => env.contains "x_train" && env.contains "input_shape") = true := by
  decide

/-- C8: for every argument tuple, the ipynb `residual_block` and
`convolutional_block` perform one fixed sequence of layer applications —
their kind skeletons are `residualSkel` / `convSkel` over the input's
skeleton, independent of every argument value — and they raise the
unpacking error exactly when `filters` does not have three elements. -/
theorem blocks_fixed_layer_sequence :
    ∀ (X : Tensor) (f : Nat) (fs : List Nat) (stage : Nat) (block : String) (s : Nat),
      (Impl.residual_block X f fs stage block).map Tensor.kindTree =
        (if fs.length = 3 then Except.ok (residualSkel X.kindTree)
         else Except.error PyErr.unpackError) ∧
      (Impl.convolutional_block X f fs stage block s).map Tensor.kindTree =
        (if fs.length = 3 then Except.ok (convSkel X.kindTree)
         else Except.error PyErr.unpackError) := by
  intro X f fs stage block s
  rcases fs with _ | ⟨a, _ | ⟨b, _ | ⟨c, _ | ⟨d, t⟩⟩⟩⟩ <;> exact ⟨rfl, rfl⟩

/-- C3 counterexample: called with the same arguments, the two `ResNet50`
functions do not build the same graph even after erasing all layer names:
the part_000 one raises `NameError` on the unbound `X_shortcut` inside
its first convolutional block and builds no graph at all. -/
theorem resnet50_graphs_not_equal_up_to_names :
    (Part0.ResNet50 [28, 28, 1] 10).map Tensor.stripNames ≠
      (Impl.ResNet50 [28, 28, 1] 10).map Tensor.stripNames := by
  intro h
  have h1 : (Part0.ResNet50 [28, 28, 1] 10).map Tensor.stripNames =
      Except.error (PyErr.nameError "X_shortcut") := rfl
  obtain ⟨t, ht⟩ : ∃ t, (Impl.ResNet50 [28, 28, 1] 10).map Tensor.stripNames =
      Except.ok t := ⟨_, rfl⟩
  rw [h1, ht] at h
  exact Except.noConfusion h

/-- C3 amended: the two notebooks declare the same intended topology —
their residual blocks build identical graphs up to layer names and their
`ResNet50` bodies contain the identical sequence of 16 stage calls — but
the part_000 `convolutional_block` reads the unbound `X_shortcut`, so the
part_000 `ResNet50` raises `NameError` and builds no model graph, while
the ipynb `ResNet50` builds one. -/
theorem notebooks_same_topology_amended :
    (∀ (X : Tensor) (f : Nat) (fs : List Nat) (stage : Nat) (block : String),
      (Impl.residual_block X f fs stage block).map Tensor.stripNames =
        Part0.residual_block X.stripNames f fs stage block) ∧
    Part0.resNet50StageCalls = Impl.resNet50StageCalls ∧
    Part0.ResNet50 [28, 28, 1] 10 =
      Except.error (PyErr.nameError "X_shortcut") ∧
    (∃ t, Impl.ResNet50 [28, 28, 1] 10 = Except.ok t) := by
  refine ⟨?_, rfl, rfl, ⟨_, rfl⟩⟩
  intro X f fs stage block
  rcases fs with _ | ⟨a, _ | ⟨b, _ | ⟨c, _ | ⟨d, t⟩⟩⟩⟩ <;> rfl


/-- Preservation of `seedsOk` by one stage call of the ipynb `ResNet50`:
both block functions only create `Conv2D` layers with
`glorot_uniform(seed=0)`, so they map seed-clean graphs to seed-clean
graphs and succeed whenever the filters list has three elements. -/
theorem applyStageCall_preserves_seedsOk (X : Tensor) (c : StageCall)
    (hX : X.seedsOk = true) (h3 : c.filters.length = 3) :
    ∃ t, Impl.applyStageCall X c = Except.ok t ∧ t.seedsOk = true := by
  rcases c with ⟨kind, f, fs, stage, block, strideArg⟩
  simp only at h3
  obtain ⟨a, b, d, rfl⟩ := List.length_eq_three.mp h3
  cases kind
  case convBlock =>
    refine ⟨_, rfl, ?_⟩
    simp [Tensor.seedsOk, hX]
  case identBlock =>
    refine ⟨_, rfl, ?_⟩
    simp [Tensor.seedsOk, hX]

/-- Preservation of `seedsOk` along the fold over a list of stage calls
whose filter lists all have three elements. -/
theorem foldlM_stageCalls_seedsOk :
    ∀ (L : List StageCall) (X : Tensor), X.seedsOk = true →
      (∀ c ∈ L, c.filters.length = 3) →
      ∃ t, L.foldlM Impl.applyStageCall X = Except.ok t ∧ t.seedsOk = true := by
  intro L
  induction L with
  | nil => intro X hX _; exact ⟨X, rfl, hX⟩
  | cons c L ih =>
    intro X hX hall
    obtain ⟨t1, h1, ht1⟩ :=
      applyStageCall_preserves_seedsOk X c hX (hall c (by simp))
    obtain ⟨t2, h2, ht2⟩ := ih t1 ht1 (fun d hd => hall d (by simp [hd]))
    refine ⟨t2, ?_, ht2⟩
    show Impl.applyStageCall X c >>=
      (fun X2 => List.foldlM Impl.applyStageCall X2 L) = Except.ok t2
    rw [h1]
    exact h2

/-- C10: for every `input_shape` and `classes`, the ipynb `ResNet50`
successfully builds a graph in which every `Conv2D` and `Dense` layer
carries `kernel_initializer = glorot_uniform(seed=0)`.  Graph
construction is a pure function of `(input_shape, classes)` whose only
source of randomness is fixed by these seeds, so any two calls with equal
arguments produce layer-for-layer identical configurations and identical
initial kernel weights. -/
theorem resnet50_all_kernels_seeded :
    ∀ (input_shape : List Nat) (classes : Nat),
      ∃ t, Impl.ResNet50 input_shape classes = Except.ok t ∧
        t.seedsOk = true := by
  intro input_shape classes
  obtain ⟨t, ht, hts⟩ := foldlM_stageCalls_seedsOk Impl.resNet50StageCalls
    (Tensor.app1 (LayerOp.maxPooling2D (3, 3) (2, 2))
      (Tensor.app1 (LayerOp.activation "relu")
        (Tensor.app1 (LayerOp.batchNorm 3 (some "bn_conv1"))
          (Tensor.app1 (LayerOp.conv2D
              ⟨64, (7, 7), (2, 2), "valid", some "conv1", some 0⟩)
            (Tensor.app1 (LayerOp.zeroPadding2D (3, 3))
              (Tensor.input input_shape))))))
    (by simp [Tensor.seedsOk]) (by decide)
  refine ⟨Tensor.app1 (LayerOp.dense classes "softmax"
      (some ("fc" ++ toString classes)) (some 0))
      (Tensor.app1 LayerOp.flatten
        (Tensor.app1 (LayerOp.averagePooling2D (2, 2) "same") t)), ?_, ?_⟩
  · have hdef : Impl.ResNet50 input_shape classes =
        (List.foldlM Impl.applyStageCall
          (Tensor.app1 (LayerOp.maxPooling2D (3, 3) (2, 2))
            (Tensor.app1 (LayerOp.activation "relu")
              (Tensor.app1 (LayerOp.batchNorm 3 (some "bn_conv1"))
                (Tensor.app1 (LayerOp.conv2D
                    ⟨64, (7, 7), (2, 2), "valid", some "conv1", some 0⟩)
                  (Tensor.app1 (LayerOp.zeroPadding2D (3, 3))
                    (Tensor.input input_shape))))))
          Impl.resNet50StageCalls).map (fun X =>
            Tensor.app1 (LayerOp.dense classes "softmax"
              (some ("fc" ++ toString classes)) (some 0))
              (Tensor.app1 LayerOp.flatten
                (Tensor.app1 (LayerOp.averagePooling2D (2, 2) "same") X))) := rfl
    rw [hdef, ht]
    rfl
  · simp [Tensor.seedsOk, hts]

/-- Shape of a unary layer application, given the operand's shape. -/
theorem outShape_app1 (op : LayerOp) (x : Tensor) (s : List Nat)
    (hx : x.outShape = some s) :
    (Tensor.app1 op x).outShape = opOutShape op s := by
  simp [Tensor.outShape, hx]

/-- Shape of an `Add` node whose operands have the same shape. -/
theorem outShape_add2_eq (nm : Option String) (x y : Tensor) (sx : List Nat)
    (hx : x.outShape = some sx) (hy : y.outShape = some sx) :
    (Tensor.add2 nm x y).outShape = some sx := by
  simp [Tensor.outShape, hx, hy]

/-- Shape of a 1x1 "valid" convolution with stride `s`: each spatial
dimension `n` becomes `(n - 1) / s + 1 = ⌈n / s⌉`. -/
theorem conv1x1_s_shape (F : Nat) (nm : Option String) (sd : Option Nat)
    (s h w c : Nat) (hs : 1 ≤ s) (hh : 1 ≤ h) (hw : 1 ≤ w) :
    opOutShape (LayerOp.conv2D ⟨F, (1, 1), (s, s), "valid", nm, sd⟩) [h, w, c] =
      some [(h - 1) / s + 1, (w - 1) / s + 1, F] := by
  simp [opOutShape, convOutDim, hs, hh, hw]

/-- Shape of a 1x1 "valid" convolution with stride 1: spatial dimensions
are preserved, the channel count becomes the filter count. -/
theorem conv1x1_s1_shape (F : Nat) (nm : Option String) (sd : Option Nat)
    (h w c : Nat) (hh : 1 ≤ h) (hw : 1 ≤ w) :
    opOutShape (LayerOp.conv2D ⟨F, (1, 1), (1, 1), "valid", nm, sd⟩) [h, w, c] =
      some [h, w, F] := by
  rw [conv1x1_s_shape F nm sd 1 h w c (le_refl 1) hh hw]
  simp [Nat.div_one, Nat.sub_add_cancel hh, Nat.sub_add_cancel hw]

/-- Shape of an fxf "same" convolution with stride 1: spatial dimensions
are preserved for every kernel size. -/
theorem conv_same_s1_shape (F f2 g2 : Nat) (nm : Option String) (sd : Option Nat)
    (h w c : Nat) :
    opOutShape (LayerOp.conv2D ⟨F, (f2, g2), (1, 1), "same", nm, sd⟩) [h, w, c] =
      some [h, w, F] := by
  simp [opOutShape, convOutDim, Nat.add_sub_cancel, Nat.div_one]

/-- BatchNormalization preserves shapes. -/
theorem bn_shape (a : Nat) (nm : Option String) (s2 : List Nat) :
    opOutShape (LayerOp.batchNorm a nm) s2 = some s2 := rfl

/-- Activation layers preserve shapes. -/
theorem act_shape (fn : String) (s2 : List Nat) :
    opOutShape (LayerOp.activation fn) s2 = some s2 := rfl

/-- Shape of the three-convolution main path shared by the ipynb and
part_000 blocks (conv 1x1 stride `s` "valid", BN, ReLU, conv fxf stride 1
"same", BN, ReLU, conv 1x1 stride 1 "valid", BN): an `[h, w, c]` input
becomes `[(h-1)/s + 1, (w-1)/s + 1, F3]`. -/
theorem mainPath_outShape (X : Tensor) (F1 F2 F3 f2 s h w c : Nat)
    (n1 n2 n3 n4 n5 n6 : Option String)
    (hs : 1 ≤ s) (hh : 1 ≤ h) (hw : 1 ≤ w)
    (hX : X.outShape = some [h, w, c]) :
    (Tensor.app1 (LayerOp.batchNorm 3 n6)
      (Tensor.app1 (LayerOp.conv2D ⟨F3, (1, 1), (1, 1), "valid", n5, some 0⟩)
        (Tensor.app1 (LayerOp.activation "relu")
          (Tensor.app1 (LayerOp.batchNorm 3 n4)
            (Tensor.app1 (LayerOp.conv2D ⟨F2, (f2, f2), (1, 1), "same", n3, some 0⟩)
              (Tensor.app1 (LayerOp.activation "relu")
                (Tensor.app1 (LayerOp.batchNorm 3 n2)
                  (Tensor.app1 (LayerOp.conv2D
                      ⟨F1, (1, 1), (s, s), "valid", n1, some 0⟩) X)))))))).outShape =
      some [(h - 1) / s + 1, (w - 1) / s + 1, F3] := by
  have e1 := outShape_app1
    (LayerOp.conv2D ⟨F1, (1, 1), (s, s), "valid", n1, some 0⟩) X _ hX
  rw [conv1x1_s_shape F1 n1 (some 0) s h w c hs hh hw] at e1
  have e2 := outShape_app1 (LayerOp.batchNorm 3 n2) _ _ e1
  rw [bn_shape] at e2
  have e3 := outShape_app1 (LayerOp.activation "relu") _ _ e2
  rw [act_shape] at e3
  have e4 := outShape_app1
    (LayerOp.conv2D ⟨F2, (f2, f2), (1, 1), "same", n3, some 0⟩) _ _ e3
  rw [conv_same_s1_shape] at e4
  have e5 := outShape_app1 (LayerOp.batchNorm 3 n4) _ _ e4
  rw [bn_shape] at e5
  have e6 := outShape_app1 (LayerOp.activation "relu") _ _ e5
  rw [act_shape] at e6
  have e7 := outShape_app1
    (LayerOp.conv2D ⟨F3, (1, 1), (1, 1), "valid", n5, some 0⟩) _ _ e6
  rw [conv1x1_s1_shape F3 n5 (some 0) _ _ _
    (Nat.succ_le_succ (Nat.zero_le _)) (Nat.succ_le_succ (Nat.zero_le _))] at e7
  have e8 := outShape_app1 (LayerOp.batchNorm 3 n6) _ _ e7
  rw [bn_shape] at e8
  exact e8

/-- C6: in both notebooks, `residual_block` returns a ReLU applied to the
elementwise sum of its three-convolution main-path output and the saved
original input, and for every input tensor of shape `[h, w, F3]` (channel
count equal to `F3`) the main path and the block output both have exactly
the input's shape `[h, w, F3]`. -/
theorem residual_block_adds_input_and_preserves_shape :
    ∀ (X : Tensor) (f F1 F2 F3 stage : Nat) (block : String) (h w : Nat),
      1 ≤ h → 1 ≤ w → X.outShape = some [h, w, F3] →
      (∃ M, Impl.residual_block X f [F1, F2, F3] stage block =
          Except.ok (Tensor.app1 (LayerOp.activation "relu")
            (Tensor.add2 none M X)) ∧
        M.outShape = some [h, w, F3] ∧
        (Tensor.app1 (LayerOp.activation "relu")
          (Tensor.add2 none M X)).outShape = some [h, w, F3]) ∧
      (∃ M, Part0.residual_block X f [F1, F2, F3] stage block =
          Except.ok (Tensor.app1 (LayerOp.activation "relu")
            (Tensor.add2 none M X)) ∧
        M.outShape = some [h, w, F3] ∧
        (Tensor.app1 (LayerOp.activation "relu")
          (Tensor.add2 none M X)).outShape = some [h, w, F3]) := by
  intro X f F1 F2 F3 stage block h w hh hw hX
  constructor
  · refine ⟨_, rfl, ?_, ?_⟩
    · have hm := mainPath_outShape X F1 F2 F3 f 1 h w F3
        (some ("res" ++ toString stage ++ block ++ "_branch" ++ "2a"))
        (some ("bn" ++ toString stage ++ block ++ "_branch" ++ "2a"))
        (some ("res" ++ toString stage ++ block ++ "_branch" ++ "2b"))
        (some ("bn" ++ toString stage ++ block ++ "_branch" ++ "2b"))
        (some ("res" ++ toString stage ++ block ++ "_branch" ++ "2c"))
        (some ("bn" ++ toString stage ++ block ++ "_branch" ++ "2c"))
        (le_refl 1) hh hw hX
      simpa [Nat.div_one, Nat.sub_add_cancel hh, Nat.sub_add_cancel hw] using hm
    · have hm := mainPath_outShape X F1 F2 F3 f 1 h w F3
        (some ("res" ++ toString stage ++ block ++ "_branch" ++ "2a"))
        (some ("bn" ++ toString stage ++ block ++ "_branch" ++ "2a"))
        (some ("res" ++ toString stage ++ block ++ "_branch" ++ "2b"))
        (some ("bn" ++ toString stage ++ block ++ "_branch" ++ "2b"))
        (some ("res" ++ toString stage ++ block ++ "_branch" ++ "2c"))
        (some ("bn" ++ toString stage ++ block ++ "_branch" ++ "2c"))
        (le_refl 1) hh hw hX
      rw [Nat.div_one, Nat.div_one, Nat.sub_add_cancel hh, Nat.sub_add_cancel hw] at hm
      have hadd := outShape_add2_eq none _ X [h, w, F3] hm hX
      rw [outShape_app1 _ _ _ hadd, act_shape]
  · refine ⟨_, rfl, ?_, ?_⟩
    · have hm := mainPath_outShape X F1 F2 F3 f 1 h w F3
        none none none none none none (le_refl 1) hh hw hX
      simpa [Nat.div_one, Nat.sub_add_cancel hh, Nat.sub_add_cancel hw] using hm
    · have hm := mainPath_outShape X F1 F2 F3 f 1 h w F3
        none none none none none none (le_refl 1) hh hw hX
      rw [Nat.div_one, Nat.div_one, Nat.sub_add_cancel hh, Nat.sub_add_cancel hw] at hm
      have hadd := outShape_add2_eq none _ X [h, w, F3] hm hX
      rw [outShape_app1 _ _ _ hadd, act_shape]

/-- C6 witness: the theorem applied to the concrete input tensor of shape
[5, 5, 7] with filters [1, 2, 7], stage 2, block "b". -/
theorem residual_block_adds_input_and_preserves_shape_witness :
    (∃ M, Impl.residual_block (Tensor.input [5, 5, 7]) 3 [1, 2, 7] 2 "b" =
        Except.ok (Tensor.app1 (LayerOp.activation "relu")
          (Tensor.add2 none M (Tensor.input [5, 5, 7]))) ∧
      M.outShape = some [5, 5, 7] ∧
      (Tensor.app1 (LayerOp.activation "relu")
        (Tensor.add2 none M (Tensor.input [5, 5, 7]))).outShape =
          some [5, 5, 7]) ∧
    (∃ M, Part0.residual_block (Tensor.input [5, 5, 7]) 3 [1, 2, 7] 2 "b" =
        Except.ok (Tensor.app1 (LayerOp.activation "relu")
          (Tensor.add2 none M (Tensor.input [5, 5, 7]))) ∧
      M.outShape = some [5, 5, 7] ∧
      (Tensor.app1 (LayerOp.activation "relu")
        (Tensor.add2 none M (Tensor.input [5, 5, 7]))).outShape =
          some [5, 5, 7]) :=
  residual_block_adds_input_and_preserves_shape
    (Tensor.input [5, 5, 7]) 3 1 2 7 2 "b" 5 5 (by decide) (by decide) rfl

/-- C7: in the ipynb `convolutional_block`, the tensor added to the main
path is not the raw input but the saved input passed through the
projection `Conv2D(F3, (1,1), strides=(s,s), padding="valid")` followed
by `BatchNormalization`; for every `[h, w, c]` input both summed branches
have shape `[(h-1)/s + 1, (w-1)/s + 1, F3]` — exactly `F3` channels with
the spatial dimensions downsampled by the stride `s` (note
`(n-1)/s + 1 = ⌈n/s⌉`) — and the block output has that same shape, so
`F3` channels. -/
theorem convolutional_block_projection_shortcut :
    ∀ (X : Tensor) (f F1 F2 F3 stage : Nat) (block : String) (s h w c : Nat),
      1 ≤ s → 1 ≤ h → 1 ≤ w → X.outShape = some [h, w, c] →
      ∃ M, Impl.convolutional_block X f [F1, F2, F3] stage block s =
          Except.ok (Tensor.app1 (LayerOp.activation "relu")
            (Tensor.add2 none M
              (Tensor.app1 (LayerOp.batchNorm 3
                  (some ("bn" ++ toString stage ++ block ++ "_branch" ++ "1")))
                (Tensor.app1 (LayerOp.conv2D
                    ⟨F3, (1, 1), (s, s), "valid",
                     some ("res" ++ toString stage ++ block ++ "_branch" ++ "1"),
                     some 0⟩) X)))) ∧
        M.outShape = some [(h - 1) / s + 1, (w - 1) / s + 1, F3] ∧
        (Tensor.app1 (LayerOp.batchNorm 3
            (some ("bn" ++ toString stage ++ block ++ "_branch" ++ "1")))
          (Tensor.app1 (LayerOp.conv2D
              ⟨F3, (1, 1), (s, s), "valid",
               some ("res" ++ toString stage ++ block ++ "_branch" ++ "1"),
               some 0⟩) X)).outShape =
          some [(h - 1) / s + 1, (w - 1) / s + 1, F3] ∧
        (Tensor.app1 (LayerOp.activation "relu")
          (Tensor.add2 none M
            (Tensor.app1 (LayerOp.batchNorm 3
                (some ("bn" ++ toString stage ++ block ++ "_branch" ++ "1")))
              (Tensor.app1 (LayerOp.conv2D
                  ⟨F3, (1, 1), (s, s), "valid",
                   some ("res" ++ toString stage ++ block ++ "_branch" ++ "1"),
                   some 0⟩) X)))).outShape =
          some [(h - 1) / s + 1, (w - 1) / s + 1, F3] := by
  intro X f F1 F2 F3 stage block s h w c hs hh hw hX
  have hm := mainPath_outShape X F1 F2 F3 f s h w c
    (some ("res" ++ toString stage ++ block ++ "_branch" ++ "2a"))
    (some ("bn" ++ toString stage ++ block ++ "_branch" ++ "2a"))
    (some ("res" ++ toString stage ++ block ++ "_branch" ++ "2b"))
    (some ("bn" ++ toString stage ++ block ++ "_branch" ++ "2b"))
    (some ("res" ++ toString stage ++ block ++ "_branch" ++ "2c"))
    (some ("bn" ++ toString stage ++ block ++ "_branch" ++ "2c"))
    hs hh hw hX
  have hsc1 := outShape_app1 (LayerOp.conv2D
    ⟨F3, (1, 1), (s, s), "valid",
     some ("res" ++ toString stage ++ block ++ "_branch" ++ "1"), some 0⟩) X _ hX
  rw [conv1x1_s_shape F3 _ (some 0) s h w c hs hh hw] at hsc1
  have hsc := outShape_app1 (LayerOp.batchNorm 3
    (some ("bn" ++ toString stage ++ block ++ "_branch" ++ "1"))) _ _ hsc1
  rw [bn_shape] at hsc
  refine ⟨_, rfl, hm, hsc, ?_⟩
  have hadd := outShape_add2_eq none _ _ _ hm hsc
  rw [outShape_app1 _ _ _ hadd, act_shape]

/-- C7 witness: the theorem applied to the concrete input tensor of shape
[5, 5, 3] with filters [1, 2, 8], stage 3, block "a" and stride 2; both
branches and the output get shape [3, 3, 8] = [(5-1)/2 + 1, (5-1)/2 + 1, 8]. -/
theorem convolutional_block_projection_shortcut_witness :
    ∃ M, Impl.convolutional_block (Tensor.input [5, 5, 3]) 3 [1, 2, 8] 3 "a" 2 =
        Except.ok (Tensor.app1 (LayerOp.activation "relu")
          (Tensor.add2 none M
            (Tensor.app1 (LayerOp.batchNorm 3
                (some ("bn" ++ toString 3 ++ "a" ++ "_branch" ++ "1")))
              (Tensor.app1 (LayerOp.conv2D
                  ⟨8, (1, 1), (2, 2), "valid",
                   some ("res" ++ toString 3 ++ "a" ++ "_branch" ++ "1"),
                   some 0⟩) (Tensor.input [5, 5, 3]))))) ∧
      M.outShape = some [3, 3, 8] ∧
      (Tensor.app1 (LayerOp.batchNorm 3
          (some ("bn" ++ toString 3 ++ "a" ++ "_branch" ++ "1")))
        (Tensor.app1 (LayerOp.conv2D
            ⟨8, (1, 1), (2, 2), "valid",
             some ("res" ++ toString 3 ++ "a" ++ "_branch" ++ "1"),
             some 0⟩) (Tensor.input [5, 5, 3]))).outShape = some [3, 3, 8] ∧
      (Tensor.app1 (LayerOp.activation "relu")
        (Tensor.add2 none M
          (Tensor.app1 (LayerOp.batchNorm 3
              (some ("bn" ++ toString 3 ++ "a" ++ "_branch" ++ "1")))
            (Tensor.app1 (LayerOp.conv2D
                ⟨8, (1, 1), (2, 2), "valid",
                 some ("res" ++ toString 3 ++ "a" ++ "_branch" ++ "1"),
                 some 0⟩) (Tensor.input [5, 5, 3]))))).outShape =
        some [3, 3, 8] :=
  convolutional_block_projection_shortcut
    (Tensor.input [5, 5, 3]) 3 1 2 8 3 "a" 2 5 5 3
    (by decide) (by decide) (by decide) rfl
